import Mathlib

/-
Verification of the roboarm_gcode parser (src/main.rs) against its
natural-language specification.

The embedding mirrors the parse logic of main.rs:
  - extract_command (src/main.rs lines 206-244) dispatches on the mnemonic
    string and builds a Command from the argument tokens;
  - the per-line driver loop (src/main.rs lines 246-278) splits the file on
    newlines, splits each line on whitespace, builds the argument vector
    (dropping the final token, lines 259-266), and calls extract_command.

Rust panics (Vec index out of bounds, Result::unwrap on a parse failure) are
modelled explicitly as a PanicReason outcome: a panic aborts the whole run,
so the document driver returns either a completed list of per-line results
or an aborted prefix together with the panic reason.

Rust f32 literal values are modelled as exact rationals: the grammar of
accepted strings follows the documented FromStr grammar for f32 (optional
sign; inf, infinity, nan case-insensitively; or digits with an optional
fractional part and an optional decimal exponent), so success and failure of
parsing coincide with the Rust code; the rounding of an accepted literal to
the nearest f32 is abstracted away, which no claim here depends on.
-/

namespace RoboArm

/-- f32 values as produced by Rust string parsing: a finite value (modelled
as an exact rational), a signed infinity, or NaN. -/
inductive F32 where
  | finite (q : Rat)
  | infinite (neg : Bool)
  | nan
deriving DecidableEq, Repr

/-- Numeric value of a digit character. -/
def digitVal (c : Char) : Nat := c.toNat - '0'.toNat

/-- Decimal value of a digit string. -/
def digitsToNat (ds : List Char) : Nat :=
  ds.foldl (fun n c => 10 * n + digitVal c) 0

/-- Split a character list into its longest prefix of decimal digits and the
rest. -/
def takeDigits : List Char → List Char × List Char
  | [] => ([], [])
  | c :: rest =>
    if c.isDigit then
      let p := takeDigits rest
      (c :: p.1, p.2)
    else ([], c :: rest)

/-- Parse the optional exponent suffix of a float literal: empty input means
exponent 0; otherwise an e or E, an optional sign, and at least one digit,
with nothing after. -/
def parseExp : List Char → Option Int
  | [] => some 0
  | c :: rest =>
    if c = 'e' ∨ c = 'E' then
      let sr : Int × List Char :=
        match rest with
        | '+' :: r => (1, r)
        | '-' :: r => (-1, r)
        | r => (1, r)
      let p := takeDigits sr.2
      if p.1 = [] ∨ p.2 ≠ [] then none
      else some (sr.1 * (digitsToNat p.1 : Int))
    else none

/-- Exact rational value of a decimal literal with integer digits, fraction
digits and a decimal exponent: the digits read as an integer, scaled by ten
to the exponent minus the number of fraction digits. -/
def mantissaVal (intPart fracPart : List Char) (e : Int) : Rat :=
  let m : Int := Int.ofNat (digitsToNat (intPart ++ fracPart))
  let shift : Int := e - Int.ofNat fracPart.length
  if 0 ≤ shift then mkRat (m * Int.ofNat (Nat.pow 10 shift.toNat)) 1
  else mkRat m (Nat.pow 10 (-shift).toNat)

/-- Parse an unsigned decimal float literal body: digits, optionally a dot
with further digits (at least one digit overall around the dot), then an
optional exponent. -/
def parseNumber (s : List Char) : Option Rat :=
  let p1 := takeDigits s
  match p1.2 with
  | '.' :: r2 =>
    let p2 := takeDigits r2
    if p1.1 = [] ∧ p2.1 = [] then none
    else
      match parseExp p2.2 with
      | none => none
      | some e => some (mantissaVal p1.1 p2.1 e)
  | r1 =>
    if p1.1 = [] then none
    else
      match parseExp r1 with
      | none => none
      | some e => some (mantissaVal p1.1 [] e)

/-- Model of str::parse::<f32> from the Rust standard library: optional
sign, then case-insensitively inf, infinity or nan, or a decimal number. -/
def parseF32 (s : String) : Option F32 :=
  let cs := s.data
  let sc : Bool × List Char :=
    match cs with
    | '+' :: r => (false, r)
    | '-' :: r => (true, r)
    | r => (false, r)
  let low := sc.2.map Char.toLower
  if low = "inf".data ∨ low = "infinity".data then some (.infinite sc.1)
  else if low = "nan".data then some .nan
  else
    match parseNumber sc.2 with
    | none => none
    | some q => some (.finite (if sc.1 then -q else q))

/-- Axis, exactly as the enum at src/main.rs lines 176-183. -/
inductive Axis where
  | X (v : F32)
  | Y (v : F32)
  | Z (v : F32)
  | A (v : F32)
  | B (v w : F32)
  | C (v : F32)
deriving DecidableEq, Repr

/-- Command, exactly as the enum at src/main.rs lines 195-204. -/
inductive Command where
  | NO
  | HM (x y z : F32)
  | TG (x y z : F32)
  | CL (a b c d e : F32)
  | MN (ax : Axis)
  | RH
  | RS
  | FS
deriving DecidableEq, Repr

/-- Reason a Rust panic fired: a Vec index out of bounds, or Result::unwrap
on a failed f32 parse of the token at the given index. -/
inductive PanicReason where
  | indexOutOfBounds (idx : Nat)
  | invalidFloat (idx : Nat) (text : String)
deriving DecidableEq, Repr

/-- The two source sites that return Err(false) in extract_command: the
catch-all mnemonic arm (src/main.rs line 242) and the catch-all axis arm
inside the MN arm (line 237). Both return the same payload false in the
source; the constructor records which arm fired. -/
inductive ErrKind where
  | unknownMnemonic
  | unknownAxis
deriving DecidableEq, Repr

/-- The payload the source actually returns at either error site. -/
def ErrKind.payload : ErrKind → Bool := fun _ => false

/-- Outcome of one call to extract_command: a normal Ok(Command), a normal
Err(false) from one of the two error arms, or a panic. -/
inductive ExtractResult where
  | ok (c : Command)
  | err (k : ErrKind)
  | panicked (r : PanicReason)
deriving DecidableEq, Repr

deriving instance DecidableEq for Except

/-- Model of arguments[i].parse::<f32>().unwrap(): index out of bounds and
unwrap-on-Err both panic. -/
def parseArg (arguments : List String) (i : Nat) :
    Except PanicReason F32 :=
  match arguments.get? i with
  | none => .error (.indexOutOfBounds i)
  | some t =>
    match parseF32 t with
    | none => .error (.invalidFloat i t)
    | some v => .ok v

/-- Sequence one argument fetch-and-parse, propagating a panic. -/
def withArg (arguments : List String) (i : Nat)
    (k : F32 → ExtractResult) : ExtractResult :=
  match parseArg arguments i with
  | .error r => .panicked r
  | .ok v => k v

/-- HM arm of extract_command (src/main.rs lines 210-214). -/
def extract_HM (arguments : List String) : ExtractResult :=
  withArg arguments 0 fun a0 =>
  withArg arguments 1 fun a1 =>
  withArg arguments 2 fun a2 =>
  .ok (.HM a0 a1 a2)

/-- TG arm of extract_command (src/main.rs lines 215-219). -/
def extract_TG (arguments : List String) : ExtractResult :=
  withArg arguments 0 fun a0 =>
  withArg arguments 1 fun a1 =>
  withArg arguments 2 fun a2 =>
  .ok (.TG a0 a1 a2)

/-- CL arm of extract_command (src/main.rs lines 220-226). -/
def extract_CL (arguments : List String) : ExtractResult :=
  withArg arguments 0 fun a0 =>
  withArg arguments 1 fun a1 =>
  withArg arguments 2 fun a2 =>
  withArg arguments 3 fun a3 =>
  withArg arguments 4 fun a4 =>
  .ok (.CL a0 a1 a2 a3 a4)

/-- MN arm of extract_command (src/main.rs lines 227-238): arguments[0] is
indexed directly (a panic when absent), then matched against the six axis
letters; the catch-all arm returns Err(false). -/
def extract_MN (arguments : List String) : ExtractResult :=
  match arguments.get? 0 with
  | none => .panicked (.indexOutOfBounds 0)
  | some a0 =>
    if a0 = "X" then withArg arguments 1 fun v => .ok (.MN (.X v))
    else if a0 = "Y" then withArg arguments 1 fun v => .ok (.MN (.Y v))
    else if a0 = "Z" then withArg arguments 1 fun v => .ok (.MN (.Z v))
    else if a0 = "A" then withArg arguments 1 fun v => .ok (.MN (.A v))
    else if a0 = "B" then
      withArg arguments 1 fun v1 =>
      withArg arguments 2 fun v2 =>
      .ok (.MN (.B v1 v2))
    else if a0 = "C" then withArg arguments 1 fun v => .ok (.MN (.C v))
    else .err .unknownAxis

/-- extract_command, src/main.rs lines 206-244: dispatch on the mnemonic
string; the final arm returns Err(false) for an unknown mnemonic. -/
def extract_command (command_string : String) (arguments : List String) :
    ExtractResult :=
  if command_string = "NO" then .ok .NO
  else if command_string = "HM" then extract_HM arguments
  else if command_string = "TG" then extract_TG arguments
  else if command_string = "CL" then extract_CL arguments
  else if command_string = "MN" then extract_MN arguments
  else if command_string = "RH" then .ok .RH
  else if command_string = "RS" then .ok .RS
  else if command_string = "FS" then .ok .FS
  else .err .unknownMnemonic

/-- The mnemonics named by some arm of the match in extract_command. -/
def knownMnemonics : List String :=
  ["NO", "HM", "TG", "CL", "MN", "RH", "RS", "FS"]

/-- The axis letters named by some arm of the inner MN match. -/
def axisLetters : List String := ["X", "Y", "Z", "A", "B", "C"]

/-- Character-level worker for split_whitespace: walk the characters
accumulating the current token in reverse; a whitespace character closes the
current token if it is non-empty, and tokens are emitted in order. -/
def splitWsAux (cs : List Char) (cur : List Char) : List String :=
  match cs with
  | [] => if cur = [] then [] else [String.mk cur.reverse]
  | c :: rest =>
    if c.isWhitespace then
      if cur = [] then splitWsAux rest []
      else String.mk cur.reverse :: splitWsAux rest []
    else splitWsAux rest (c :: cur)

/-- command.split_whitespace().collect() at src/main.rs line 249: split on
runs of whitespace, keeping only non-empty tokens. -/
def splitWhitespaceTerms (line : String) : List String :=
  splitWsAux line.data []

/-- Character-level worker for split on a newline: every newline closes the
current piece, so n separators yield n plus one pieces, empty pieces
included. -/
def splitLinesAux (cs : List Char) (cur : List Char) : List String :=
  match cs with
  | [] => [String.mk cur.reverse]
  | c :: rest =>
    if c = '\n' then String.mk cur.reverse :: splitLinesAux rest []
    else splitLinesAux rest (c :: cur)

/-- file_string.split("\n").collect() at src/main.rs line 246. -/
def splitLines (s : String) : List String := splitLinesAux s.data []

/-- The argument-building loop over the tokens after the mnemonic
(src/main.rs lines 259-266): each token is pushed except the final one,
where the loop prints it and breaks without pushing. -/
def buildArgsLoop : List String → List String
  | [] => []
  | [_] => []
  | t :: rest => t :: buildArgsLoop rest

/-- The argument vector handed to extract_command for a line with the given
tokens: the loop runs over indices from 1. -/
def buildArgs (terms : List String) : List String :=
  match terms with
  | [] => []
  | _ :: rest => buildArgsLoop rest

/-- One iteration of the per-line driver (src/main.rs lines 248-277):
printing terms[0] panics on an empty token list; otherwise the argument
vector is built and extract_command is called. -/
def process_line (command : String) : Except PanicReason ExtractResult :=
  let terms := splitWhitespaceTerms command
  match terms.get? 0 with
  | none => .error (.indexOutOfBounds 0)
  | some t0 => .ok (extract_command t0 (buildArgs terms))

/-- Outcome of running the driver over a list of lines: either every line
was processed, or a panic aborted the run after a prefix of results. -/
inductive RunOutcome where
  | completed (results : List ExtractResult)
  | aborted (done : List ExtractResult) (r : PanicReason)
deriving DecidableEq, Repr

/-- The driver loop over the lines of the document: a panic, whether from
indexing terms[0] or from inside extract_command, aborts the whole run. -/
def run_lines : List String → RunOutcome
  | [] => .completed []
  | c :: rest =>
    match process_line c with
    | .error r => .aborted [] r
    | .ok (.panicked r) => .aborted [] r
    | .ok res =>
      match run_lines rest with
      | .completed results => .completed (res :: results)
      | .aborted done r => .aborted (res :: done) r

/-- file_string.split("\n") followed by the per-line loop
(src/main.rs lines 246-278). -/
def run_document (file_string : String) : RunOutcome :=
  run_lines (splitLines file_string)

/-! Dispatch lemmas: extract_command at each literal mnemonic reduces to the
corresponding arm. -/

theorem extract_command_HM_eq (args : List String) :
    extract_command "HM" args = extract_HM args := rfl

theorem extract_command_TG_eq (args : List String) :
    extract_command "TG" args = extract_TG args := rfl

theorem extract_command_CL_eq (args : List String) :
    extract_command "CL" args = extract_CL args := rfl

theorem extract_command_MN_eq (args : List String) :
    extract_command "MN" args = extract_MN args := rfl

/-- The argument-building loop keeps every token except the last. -/
theorem buildArgsLoop_eq_dropLast (l : List String) :
    buildArgsLoop l = l.dropLast := by
  induction l with
  | nil => rfl
  | cons a t ih =>
    cases t with
    | nil => rfl
    | cons b u => simp [buildArgsLoop, ih]

/-- Claim C1: the spec requires extract to return a recoverable
InvalidNumber diagnostic for a non-numeric token; the code instead panics
via Result::unwrap at the offending token, aborting the run. At the spec
example input the panic fires on the token x at index 4. -/
theorem cl_invalid_number_panics :
    extract_command "CL" ["1", "2", "3", "4", "x"] =
      .panicked (.invalidFloat 4 "x") := by decide

/-- Claim C2: the spec requires an ArityMismatch error when the argument
count is wrong; the code performs no arity check and instead panics with an
index out of bounds when too few arguments are given. At the spec example
input TG with two arguments, indexing arguments[2] panics. -/
theorem tg_arity_underflow_panics :
    extract_command "TG" ["1", "2"] = .panicked (.indexOutOfBounds 2) := by
  decide

/-- Claim C3: the spec says a line that is blank after trimming is silently
skipped; the code indexes terms[0] unconditionally, so a blank line panics
with an index out of bounds and aborts the run after the results of the
preceding lines. -/
theorem blank_line_panics_run :
    run_document "NO\n\nNO" =
      .aborted [.ok .NO] (.indexOutOfBounds 0) := by decide

/-- Claim C4: the spec requires the pipeline to be driven to completion
with every malformed line producing a recoverable per-line diagnostic; the
code panics on the first malformed numeric token, aborting the run before
later lines are processed. -/
theorem run_aborts_on_malformed_line :
    run_document "HM x 0 0 0\nNO" =
      .aborted [] (.invalidFloat 0 "x") := by decide

/-- Claim C5: for every mnemonic text outside the closed command table and
every argument list, extract_command takes the catch-all arm and returns
the unknown-mnemonic error, without touching the arguments. -/
theorem unknown_mnemonic_errs (cs : String) (args : List String)
    (h : cs ∉ knownMnemonics) :
    extract_command cs args = .err .unknownMnemonic := by
  simp only [knownMnemonics, List.mem_cons, List.mem_singleton, not_or] at h
  obtain ⟨h1, h2, h3, h4, h5, h6, h7, h8⟩ := h
  simp [extract_command, h1, h2, h3, h4, h5, h6, h7, h8]

/-- Witness for claim C5 at the spec example: ZZ with no arguments. -/
theorem unknown_mnemonic_errs_witness :
    "ZZ" ∉ knownMnemonics ∧
      extract_command "ZZ" [] = .err .unknownMnemonic :=
  ⟨by decide, unknown_mnemonic_errs "ZZ" [] (by decide)⟩

/-- Claim C7: for MN with a first argument token that is not one of the six
axis letters, extract_command takes the inner catch-all arm and returns the
unknown-axis error, whatever the remaining tokens are. -/
theorem mn_unknown_axis_errs (a0 : String) (rest : List String)
    (h : a0 ∉ axisLetters) :
    extract_command "MN" (a0 :: rest) = .err .unknownAxis := by
  simp only [axisLetters, List.mem_cons, List.mem_singleton, not_or] at h
  obtain ⟨h1, h2, h3, h4, h5, h6⟩ := h
  rw [extract_command_MN_eq]
  simp [extract_MN, h1, h2, h3, h4, h5, h6]

/-- Witness for claim C7 at the spec example: MN with first token Q. -/
theorem mn_unknown_axis_errs_witness :
    "Q" ∉ axisLetters ∧
      extract_command "MN" ["Q", "1.0"] = .err .unknownAxis :=
  ⟨by decide, mn_unknown_axis_errs "Q" ["1.0"] (by decide)⟩

/-- Claim C6: for MN the first token selects the axis; with exactly one
numeric token for X, Y, Z, A, C and exactly two for B, extraction succeeds
and wraps the matching Axis variant. -/
theorem mn_axis_success :
    (∀ t v, parseF32 t = some v →
      extract_command "MN" ["X", t] = .ok (.MN (.X v))) ∧
    (∀ t v, parseF32 t = some v →
      extract_command "MN" ["Y", t] = .ok (.MN (.Y v))) ∧
    (∀ t v, parseF32 t = some v →
      extract_command "MN" ["Z", t] = .ok (.MN (.Z v))) ∧
    (∀ t v, parseF32 t = some v →
      extract_command "MN" ["A", t] = .ok (.MN (.A v))) ∧
    (∀ t v, parseF32 t = some v →
      extract_command "MN" ["C", t] = .ok (.MN (.C v))) ∧
    (∀ t1 t2 v1 v2, parseF32 t1 = some v1 → parseF32 t2 = some v2 →
      extract_command "MN" ["B", t1, t2] = .ok (.MN (.B v1 v2))) := by
  refine ⟨?_, ?_, ?_, ?_, ?_, ?_⟩ <;>
    intros <;>
    rw [extract_command_MN_eq] <;>
    simp_all [extract_MN, withArg, parseArg, List.get?]

/-- Witness for claim C6 at the spec example: MN B 1.5 2.5. -/
theorem mn_axis_success_witness :
    parseF32 "1.5" = some (.finite (mkRat 3 2)) ∧
      parseF32 "2.5" = some (.finite (mkRat 5 2)) ∧
      extract_command "MN" ["B", "1.5", "2.5"] =
        .ok (.MN (.B (.finite (mkRat 3 2)) (.finite (mkRat 5 2)))) :=
  ⟨by decide, by decide,
    mn_axis_success.2.2.2.2.2 "1.5" "2.5" _ _ (by decide) (by decide)⟩

/-- Claim C8: each fixed-arity mnemonic given exactly its arity of
numerically valid tokens succeeds, building the Command variant
positionally in the order the tokens were given. -/
theorem fixed_arity_exact_success :
    extract_command "NO" [] = .ok .NO ∧
    (∀ t1 t2 t3 v1 v2 v3, parseF32 t1 = some v1 → parseF32 t2 = some v2 →
      parseF32 t3 = some v3 →
      extract_command "HM" [t1, t2, t3] = .ok (.HM v1 v2 v3)) ∧
    (∀ t1 t2 t3 v1 v2 v3, parseF32 t1 = some v1 → parseF32 t2 = some v2 →
      parseF32 t3 = some v3 →
      extract_command "TG" [t1, t2, t3] = .ok (.TG v1 v2 v3)) ∧
    (∀ t1 t2 t3 t4 t5 v1 v2 v3 v4 v5, parseF32 t1 = some v1 →
      parseF32 t2 = some v2 → parseF32 t3 = some v3 →
      parseF32 t4 = some v4 → parseF32 t5 = some v5 →
      extract_command "CL" [t1, t2, t3, t4, t5] =
        .ok (.CL v1 v2 v3 v4 v5)) ∧
    extract_command "RH" [] = .ok .RH ∧
    extract_command "RS" [] = .ok .RS ∧
    extract_command "FS" [] = .ok .FS := by
  refine ⟨rfl, ?_, ?_, ?_, rfl, rfl, rfl⟩ <;>
    intros <;>
    first
      | (rw [extract_command_HM_eq];
         simp_all [extract_HM, withArg, parseArg, List.get?])
      | (rw [extract_command_TG_eq];
         simp_all [extract_TG, withArg, parseArg, List.get?])
      | (rw [extract_command_CL_eq];
         simp_all [extract_CL, withArg, parseArg, List.get?])

/-- Witness for claim C8 at the spec example: HM 1.0 2.0 3.0. -/
theorem fixed_arity_exact_success_witness :
    parseF32 "1.0" = some (.finite (mkRat 1 1)) ∧
      extract_command "HM" ["1.0", "2.0", "3.0"] =
        .ok (.HM (.finite (mkRat 1 1)) (.finite (mkRat 2 1))
          (.finite (mkRat 3 1))) :=
  ⟨by decide,
    fixed_arity_exact_success.2.1 "1.0" "2.0" "3.0" _ _ _
      (by decide) (by decide) (by decide)⟩

/-- Claim C9: for a line whose whitespace tokens are t0 followed by rest,
the argument vector handed to extract_command is rest with its final token
dropped: the loop prints the last token and breaks without pushing it. -/
theorem driver_drops_last_token (line t0 : String) (rest : List String)
    (hsplit : splitWhitespaceTerms line = t0 :: rest) :
    buildArgs (t0 :: rest) = rest.dropLast ∧
    process_line line = .ok (extract_command t0 rest.dropLast) := by
  have hb : buildArgsLoop rest = rest.dropLast := buildArgsLoop_eq_dropLast rest
  refine ⟨by simpa [buildArgs] using hb, ?_⟩
  simp [process_line, hsplit, buildArgs, hb, List.get?]

/-- Witness for claim C9 at the line HM 1 2 3: the extractor receives only
the arguments 1 and 2. -/
theorem driver_drops_last_token_witness :
    splitWhitespaceTerms "HM 1 2 3" = ["HM", "1", "2", "3"] ∧
      buildArgs ["HM", "1", "2", "3"] = ["1", "2"] ∧
      process_line "HM 1 2 3" = .ok (extract_command "HM" ["1", "2"]) := by
  have h := driver_drops_last_token "HM 1 2 3" "HM" ["1", "2", "3"]
    (by decide)
  exact ⟨by decide, h.1, h.2⟩

/-- Claim C10: surplus arguments are never rejected. NO, RH, RS and FS
succeed on every argument list; HM, TG and CL succeed on any argument list
whose first arity-many tokens are present and parse, ignoring the rest. -/
theorem surplus_arguments_ignored :
    (∀ args, extract_command "NO" args = .ok .NO) ∧
    (∀ args, extract_command "RH" args = .ok .RH) ∧
    (∀ args, extract_command "RS" args = .ok .RS) ∧
    (∀ args, extract_command "FS" args = .ok .FS) ∧
    (∀ args v1 v2 v3, parseArg args 0 = .ok v1 → parseArg args 1 = .ok v2 →
      parseArg args 2 = .ok v3 →
      extract_command "HM" args = .ok (.HM v1 v2 v3)) ∧
    (∀ args v1 v2 v3, parseArg args 0 = .ok v1 → parseArg args 1 = .ok v2 →
      parseArg args 2 = .ok v3 →
      extract_command "TG" args = .ok (.TG v1 v2 v3)) ∧
    (∀ args v1 v2 v3 v4 v5, parseArg args 0 = .ok v1 →
      parseArg args 1 = .ok v2 → parseArg args 2 = .ok v3 →
      parseArg args 3 = .ok v4 → parseArg args 4 = .ok v5 →
      extract_command "CL" args = .ok (.CL v1 v2 v3 v4 v5)) := by
  refine ⟨fun _ => rfl, fun _ => rfl, fun _ => rfl, fun _ => rfl,
    ?_, ?_, ?_⟩ <;>
    intros <;>
    first
      | (rw [extract_command_HM_eq]; simp_all [extract_HM, withArg])
      | (rw [extract_command_TG_eq]; simp_all [extract_TG, withArg])
      | (rw [extract_command_CL_eq]; simp_all [extract_CL, withArg])

/-- Witness for claim C10: HM with a fourth, non-numeric surplus token
still succeeds on the first three tokens, and NO succeeds with arguments
present. -/
theorem surplus_arguments_ignored_witness :
    parseArg ["1", "2", "3", "junk"] 0 = .ok (.finite (mkRat 1 1)) ∧
      extract_command "HM" ["1", "2", "3", "junk"] =
        .ok (.HM (.finite (mkRat 1 1)) (.finite (mkRat 2 1))
          (.finite (mkRat 3 1))) ∧
      extract_command "NO" ["5", "6"] = .ok .NO :=
  ⟨by decide,
    surplus_arguments_ignored.2.2.2.2.1 ["1", "2", "3", "junk"] _ _ _
      (by decide) (by decide) (by decide),
    surplus_arguments_ignored.1 ["5", "6"]⟩

end RoboArm
